import Mathlib

/-!
Verification development for the grid repository (modules grid/ode.py and
grid/interpolate.py), shallowly embedded in Lean 4.

Conventions of the embedding:
- numpy float arrays are modelled as functions ℕ → ℝ (one index per axis);
  entries outside the array shape are irrelevant and the theorems quantify
  or hypothesise over the in-shape index ranges.
- Python exceptions are modelled with Except / Option carrying an error value.
- np.nan_to_num is the identity in the real-number model (ℝ has no NaN);
  the places where the source applies it are kept and commented.
- The external scipy routines (solve_bvp, CubicSpline, sph_harm) are out of
  scope for the repository; they are modelled as oracles: the embedding
  records exactly which data the repository passes to them, or takes the
  routine result as an input.
-/

noncomputable section

namespace GridOde

/-- From grid/ode.py, _construct_coeff_array: a coefficient is either a plain
number or a callable of the independent variable. -/
inductive Coeff where
  | const : ℝ → Coeff
  | func : (ℝ → ℝ) → Coeff

/-- Evaluation of a coefficient at a point: a constant broadcasts, a callable
is sampled (the two branches of _construct_coeff_array, lines 304-308). -/
def Coeff.eval : Coeff → ℝ → ℝ
  | Coeff.const c, _ => c
  | Coeff.func f, x => f x

/-- ODE._construct_coeff_array (ode.py lines 288-309): build the
(len coeff) × (x.size) matrix whose row i holds coeff[i] evaluated on the
mesh x.  Rows beyond the list length are the zero rows of np.zeros. -/
def construct_coeff_array (x : ℕ → ℝ) (coeff : List Coeff) : ℕ → ℕ → ℝ :=
  fun i n => (coeff.getD i (Coeff.const 0)).eval (x n)

/-- Record of the data solve_ode passes to the external scipy
solve_bvp routine (ode.py line 131).  `maxNodes = none` means the keyword was
not passed, so the library default applies. -/
structure BvpInvocation where
  tol : ℝ
  maxNodes : Option ℕ
  guess : ℕ → ℕ → ℝ

/-- ODE.solve_ode, lines 130-131: the initial guess is always
y = np.random.rand(order, x.size) (the parameter initial_guess_y is never
read), and the call is solve_bvp(func, bc, x, y, tol=1e-4): the tol keyword
is the literal 1e-4, not the caller tol, and max_nodes is not passed.
`rand` is the oracle for np.random.rand (rand k n is entry (k, n) of the
fresh draw). -/
def solve_ode_bvp_call (coeffs : List Coeff) (nx : ℕ) (tol : ℝ) (maxNodes : ℕ)
    (initialGuessY : Option (ℕ → ℕ → ℝ)) (rand : ℕ → ℕ → ℝ) : BvpInvocation :=
  { tol := 1 / 10000
    maxNodes := none
    guess := fun k n => rand k n }

/-- Result of the external solve_bvp call, as consumed by solve_ode:
a status code and the interpolant res.sol (type parameter). -/
structure BvpResult (α : Type) where
  status : ℤ
  sol : α

/-- Errors raised by ODE.solve_ode.  The first two are the
NotImplementedError argument checks (lines 105-111), `convergence` is the
ValueError of line 134 and carries the non-zero solver status of its
message. -/
inductive OdeError where
  | bdCountMismatch : ℕ → ℕ → OdeError
  | orderTooHigh : OdeError
  | convergence : ℤ → OdeError
deriving DecidableEq

/-- ODE.solve_ode control flow (ode.py lines 104-137): validate the number
of boundary conditions against order = len(coeffs) - 1 and the order bound,
then dispatch on the status of the external solver result `res`:
non-zero status raises, zero status returns res.sol. -/
def solve_ode_model {α : Type} (coeffs : List Coeff) (nbd : ℕ)
    (res : BvpResult α) : Except OdeError α :=
  let order := coeffs.length - 1
  if nbd ≠ order then Except.error (OdeError.bdCountMismatch order nbd)
  else if 3 < order then Except.error OdeError.orderTooHigh
  else if res.status ≠ 0 then Except.error (OdeError.convergence res.status)
  else Except.ok res.sol

/-- The loop of ODE._rearrange_to_explicit_ode (lines 344-346):
result starts as an alias of the fx buffer and each iteration does the
in-place result -= coeff_b[i] * y[i].  The function returns the final buffer
contents; `i` is the running loop index. -/
def rearrange_sub (y : ℕ → ℕ → ℝ) : ℕ → List (ℕ → ℝ) → (ℕ → ℝ) → (ℕ → ℝ)
  | _, [], buf => buf
  | i, b :: rest, buf => rearrange_sub y (i + 1) rest (fun n => buf n - b n * y i n)

/-- ODE._rearrange_to_explicit_ode (lines 342-347) with the numpy buffer
semantics made explicit: `result = fx` aliases the caller array, the loop
subtracts in place, and `result / coeff_b[-1]` builds a fresh array.
The value is the pair (returned array, final contents of the caller fx
buffer). -/
def rearrange_to_explicit_ode (y : ℕ → ℕ → ℝ) (coeff_b : List (ℕ → ℝ))
    (fx : ℕ → ℝ) : (ℕ → ℝ) × (ℕ → ℝ) :=
  let buf := rearrange_sub y 0 coeff_b.dropLast fx
  (fun n => buf n / (coeff_b.getLastD (fun _ => 1)) n, buf)

/-- Faithful embedding of ODE._transform_ode_from_derivs as it stands in
ode.py lines 139-209: the body references the names deriv_func_list
(line 177) and coeff_a (lines 178, 186) although the parameters are named
coeffs / deriv_transformation, so every call raises NameError before any
computation happens. -/
inductive PyErr where
  | nameError : PyErr
  | indexError : PyErr
deriving DecidableEq

/-- ODE._transform_ode_from_derivs (ode.py lines 139-209), faithful to the
source: the first statement of the body evaluates the undefined name
deriv_func_list, so the call raises NameError unconditionally. -/
def transform_ode_from_derivs (coeffs : List Coeff)
    (derivTransformation : List (ℝ → ℝ)) (r : ℕ → ℝ) :
    Except PyErr (ℕ → ℕ → ℝ) :=
  Except.error PyErr.nameError

/-- The computation the body of _transform_ode_from_derivs performs once its
stale local names are bound to the documented parameters (coeff_a := coeffs,
deriv_func_list := the transformation derivatives d1, d2, d3), exactly the
accumulation of lines 186-198: b starts as zeros, b0 += A0, and the
total > 1 / > 2 / > 3 guarded statements add the chain-rule terms. -/
def transform_ode_from_derivs_doc (coeffs : List Coeff)
    (d1 d2 d3 : ℝ → ℝ) (r : ℕ → ℝ) : ℕ → ℕ → ℝ :=
  let A := construct_coeff_array r coeffs
  let total := coeffs.length
  fun j n =>
    if j = 0 then A 0 n
    else if j = 1 then
      (if 1 < total then A 1 n * d1 (r n) else 0)
        + (if 2 < total then A 2 n * d2 (r n) else 0)
        + (if 3 < total then A 3 n * d3 (r n) else 0)
    else if j = 2 then
      (if 2 < total then A 2 n * d1 (r n) ^ 2 else 0)
        + (if 3 < total then A 3 n * 3 * d1 (r n) * d2 (r n) else 0)
    else if j = 3 then
      (if 3 < total then A 3 n * d1 (r n) ^ 3 else 0)
    else 0

/-- The transformed coefficients as the specification states them, for an
ODE of order K: b0 = a0; b1 = a1 g1, plus a2 g2 when K ≥ 2, plus a3 g3 when
K ≥ 3; b2 = a2 g1 ^ 2, plus 3 a3 g1 g2 when K ≥ 3; b3 = a3 g1 ^ 3.
A is the sampled coefficient matrix and g1, g2, g3 the sampled derivatives
of the transformation. -/
def transformed_coeffs_spec (K : ℕ) (A : ℕ → ℕ → ℝ) (g1 g2 g3 : ℕ → ℝ) :
    ℕ → ℕ → ℝ :=
  fun j n =>
    if j = 0 then A 0 n
    else if j = 1 then
      A 1 n * g1 n + (if 2 ≤ K then A 2 n * g2 n else 0)
        + (if 3 ≤ K then A 3 n * g3 n else 0)
    else if j = 2 then
      A 2 n * g1 n ^ 2 + (if 3 ≤ K then 3 * A 3 n * g1 n * g2 n else 0)
    else if j = 3 then A 3 n * g1 n ^ 3
    else 0

end GridOde

namespace GridInterpolate

open Complex

/-- The pointwise product sph_harm * value_arrays * weights of
project_function_onto_spherical_expansion (interpolate.py line 294), with
broadcasting of the point axis. -/
def prod_value (sphHarm : ℕ → ℕ → ℕ → ℝ) (valueArrays weights : ℕ → ℝ) :
    ℕ → ℕ → ℕ → ℝ :=
  fun m l n => sphHarm m l n * valueArrays n * weights n

/-- project_function_onto_spherical_expansion (interpolate.py lines
294-301): for each i in range(len(indices) - 1) the product array is summed
over the point axis on the slice [indices[i], indices[i+1]) and appended to
axis_value; np.stack turns the list into the (K, M, L) array (axis 0 is the
list position), and np.nan_to_num is the identity in the real model.
Entries at k ≥ K read the np.stack result out of range and are set to 0 in
the model. -/
def project_function_onto_spherical_expansion (sphHarm : ℕ → ℕ → ℕ → ℝ)
    (valueArrays weights : ℕ → ℝ) (indices : List ℕ) : ℕ → ℕ → ℕ → ℝ :=
  let axisValue := (List.range (indices.length - 1)).map
    (fun i => fun m l =>
      ∑ n ∈ Finset.Ico (indices.getD i 0) (indices.getD (i + 1) 0),
        prod_value sphHarm valueArrays weights m l n)
  fun k m l => (axisValue.getD k (fun _ _ => 0)) m l

/-- One-dimensional radial grid consumed by spline_with_sph_harms: points
and integration weights (external collaborator, §6 of the spec). -/
structure OneDGrid where
  points : ℕ → ℝ
  weights : ℕ → ℝ

/-- The data handed to the external scipy CubicSpline constructor: the
abscissae x and the fitted values y (axis 0 indexes the radial point, then
order m, then degree l). -/
structure SplineInput where
  x : ℕ → ℝ
  y : ℕ → ℕ → ℕ → ℝ

/-- spline_with_sph_harms (interpolate.py lines 193-202): project the
function onto the expansion, divide chunk k by radial.points[k]^2 *
radial.weights[k] (broadcast over the (m, l) axes), and pass
CubicSpline(x = radial.points, y = that array). -/
def spline_with_sph_harms (sphHarm : ℕ → ℕ → ℕ → ℝ)
    (valueArrays weights : ℕ → ℝ) (indices : List ℕ) (radial : OneDGrid) :
    SplineInput :=
  let mlSphValue :=
    project_function_onto_spherical_expansion sphHarm valueArrays weights indices
  { x := radial.points
    y := fun k m l => mlSphValue k m l / (radial.points k ^ 2 * radial.weights k) }

/-- The two ValueError argument checks of interpolate_given_splines. -/
inductive InterpErr where
  | lengthMismatch : ℕ → ℕ → InterpErr
  | derivOutOfRange : ℤ → InterpErr
deriving DecidableEq

/-- Argument validation of interpolate_given_splines (interpolate.py lines
353-361), in source order: first the theta / phi length comparison, then the
dispatch on deriv (deriv == 0 and 1 <= deriv <= 3 proceed, anything else
raises). -/
def interpolate_given_splines_validate (nTheta nPhi : ℕ) (deriv : ℤ) :
    Option InterpErr :=
  if nTheta ≠ nPhi then some (InterpErr.lengthMismatch nTheta nPhi)
  else if deriv = 0 then none
  else if 1 ≤ deriv ∧ deriv ≤ 3 then none
  else some (InterpErr.derivOutOfRange deriv)

/-- _generate_sph_paras (interpolate.py lines 118-122) maps the order-axis
index i of the harmonic tensors to the order m it stores:
m_list = [0, 1, ..., l_max, -l_max, ..., -1], so index i holds m = i for
i ≤ l_max and m = i - (2 l_max + 1) for the tail. -/
def mIndex (lmax : ℕ) (i : ℕ) : ℤ :=
  if i ≤ lmax then (i : ℤ) else (i : ℤ) - (2 * (lmax : ℤ) + 1)

/-- generate_sph_harms (interpolate.py lines 96-99) for l_max ≥ 0: the
(2 l_max + 1, l_max + 1, N) complex tensor whose entry (i, l, n) is the
external scipy sph_harm oracle Y evaluated at order m_list[i], degree l and
sample n (the two angle arrays are folded into the sample index of Y). -/
def generate_sph_harms (lmax : ℕ) (Y : ℤ → ℕ → ℕ → ℂ) : ℕ → ℕ → ℕ → ℂ :=
  fun i l n => Y (mIndex lmax i) l n

/-- Start row of the numpy slice s_h_r[-ls + 1 :] on an axis of length ms
(interpolate.py line 137).  For the shapes the repository produces
(ms = 2 l + 1, ls = l + 1 with l ≥ 0) this is ms + 1 - ls = l + 1, matching
the negative index -ls + 1. -/
def tail_start (ms ls : ℕ) : ℕ := ms + 1 - ls

/-- _convert_ylm_to_zlm (interpolate.py lines 125-141) on a complex tensor
of first-axis length ms and second-axis length ls.  The three assignments
happen in source order, a later assignment overwriting an earlier one:
rows 1 .. ls-1 get (T + conj T) / sqrt 2, rows tail_start .. ms-1 get
(T - conj T) / (sqrt 2 * i), and row 0 gets T itself; every assignment into
the float array s_h_r keeps only the real part (the silenced complex-cast
warning). -/
def convert_ylm_to_zlm (ms ls : ℕ) (T : ℕ → ℕ → ℕ → ℂ) : ℕ → ℕ → ℕ → ℝ :=
  fun i l n =>
    if i = 0 then (T 0 l n).re
    else if tail_start ms ls ≤ i ∧ i < ms then
      ((T i l n - (starRingEnd ℂ) (T i l n)) /
        ((Real.sqrt 2 : ℂ) * Complex.I)).re
    else if 1 ≤ i ∧ i < ls then
      ((T i l n + (starRingEnd ℂ) (T i l n)) / (Real.sqrt 2 : ℂ)).re
    else 0

/-- generate_real_sph_harms (interpolate.py lines 68-71) for l_max ≥ 0:
convert the complex tensor of shape (2 l_max + 1, l_max + 1, N) and apply
np.nan_to_num (the identity in the real model). -/
def generate_real_sph_harms (lmax : ℕ) (Y : ℤ → ℕ → ℕ → ℂ) : ℕ → ℕ → ℕ → ℝ :=
  convert_ylm_to_zlm (2 * lmax + 1) (lmax + 1) (generate_sph_harms lmax Y)

/-- Length of l_list = np.arange(l_max + 1) for an arbitrary integer l_max
(np.arange of a non-positive stop is empty). -/
def l_list_len (lmax : ℤ) : ℕ := (lmax + 1).toNat

/-- Length of m_list = np.append(np.arange(l_max + 1), np.arange(-l_max, 0))
for an arbitrary integer l_max: the second arange is empty when -l_max ≥ 0,
so its length is l_max.toNat. -/
def m_list_len (lmax : ℤ) : ℕ := (lmax + 1).toNat + lmax.toNat

/-- generate_sph_harms for an arbitrary integer l_max, at the level of the
shape of the returned tensor: the scipy sph_harm broadcast never raises, it
returns an array of shape (len m_list, len l_list, N), empty when l_max is
negative.  The value is the (order-axis, degree-axis) shape pair. -/
def generate_sph_harms_except (lmax : ℤ) : Except GridOde.PyErr (ℕ × ℕ) :=
  Except.ok (m_list_len lmax, l_list_len lmax)

/-- generate_real_sph_harms for an arbitrary integer l_max, at the level of
shapes and exceptions: _convert_ylm_to_zlm executes its slice assignments
(which never raise) and then s_h_r[0] = sp_harm_arrs[0] (line 140), which
raises IndexError exactly when the order axis is empty. -/
def generate_real_sph_harms_except (lmax : ℤ) :
    Except GridOde.PyErr (ℕ × ℕ) :=
  match generate_sph_harms_except lmax with
  | Except.error e => Except.error e
  | Except.ok shape =>
      if shape.1 = 0 then Except.error GridOde.PyErr.indexError
      else Except.ok shape

/-- A concrete complex-harmonic oracle used as input data in the theorems:
it satisfies the conjugation symmetry Y(-m) = (-1)^m * conj (Y m) of the
complex spherical harmonics, with a non-real value in the order-two
channel. -/
def Yc : ℤ → ℕ → ℕ → ℂ :=
  fun m _ _ => if m = 2 then Complex.I else if m = -2 then -Complex.I else 0

/-- The rows of the real-harmonic tensor as produced by the code: row 0 is
the real part of the order-zero harmonic, rows 1 .. l_max are
sqrt 2 * Re (Y m) for the stored positive order m = i, and the tail rows are
sqrt 2 * Im (Y m) for the stored negative order m = i - (2 l_max + 1). -/
def real_sph_rows_code (lmax : ℕ) (Y : ℤ → ℕ → ℕ → ℂ) : ℕ → ℕ → ℕ → ℝ :=
  fun i l n =>
    if i = 0 then (Y 0 l n).re
    else if i ≤ lmax then Real.sqrt 2 * (Y (i : ℤ) l n).re
    else Real.sqrt 2 * (Y ((i : ℤ) - (2 * (lmax : ℤ) + 1)) l n).im

end GridInterpolate

end

open GridOde GridInterpolate

/-! Helper lemmas (shared; not tied to a single claim). -/

/-- Yc has the conjugation symmetry of the complex spherical harmonics. -/
lemma Yc_conj_symm (m : ℤ) (l n : ℕ) :
    Yc (-m) l n = (-1 : ℂ) ^ m * (starRingEnd ℂ) (Yc m l n) := by
  rcases eq_or_ne m 2 with rfl | h2
  · norm_num [Yc]
  · rcases eq_or_ne m (-2) with rfl | hm2
    · norm_num [Yc]
    · have hne : -m ≠ 2 := by omega
      have hne2 : -m ≠ -2 := by omega
      simp [Yc, h2, hm2, hne, hne2]

/-- Real part of (z + conj z) / sqrt 2. -/
lemma re_add_conj_div_sqrt_two (z : ℂ) :
    ((z + (starRingEnd ℂ) z) / (Real.sqrt 2 : ℂ)).re = Real.sqrt 2 * z.re := by
  rw [Complex.add_conj, ← Complex.ofReal_div, Complex.ofReal_re,
    mul_comm 2 z.re, mul_div_assoc, Real.div_sqrt]
  ring

/-- Real part of (z - conj z) / (sqrt 2 * I). -/
lemma re_sub_conj_div_sqrt_two_I (z : ℂ) :
    ((z - (starRingEnd ℂ) z) / ((Real.sqrt 2 : ℂ) * Complex.I)).re =
      Real.sqrt 2 * z.im := by
  rw [Complex.sub_conj, mul_div_mul_right _ _ Complex.I_ne_zero,
    ← Complex.ofReal_div, Complex.ofReal_re,
    mul_comm 2 z.im, mul_div_assoc, Real.div_sqrt]
  ring

/-- Closed form of the in-place subtraction loop of
_rearrange_to_explicit_ode, for any start index of the enumeration. -/
lemma rearrange_sub_eq (y : ℕ → ℕ → ℝ) (rows : List (ℕ → ℝ)) :
    ∀ (i : ℕ) (buf : ℕ → ℝ) (n : ℕ),
      rearrange_sub y i rows buf n =
        buf n - ∑ j ∈ Finset.range rows.length,
          (rows.getD j (fun _ => 0)) n * y (i + j) n := by
  induction rows with
  | nil => intro i buf n; simp [rearrange_sub]
  | cons b rest ih =>
      intro i buf n
      rw [rearrange_sub, ih]
      rw [List.length_cons, Finset.sum_range_succ']
      simp only [List.getD_cons_succ, List.getD_cons_zero]
      have harg : ∀ j : ℕ, i + 1 + j = i + (j + 1) := by omega
      rw [Finset.sum_congr rfl (fun j _ => by rw [harg j])]
      rw [sub_sub, add_comm]
      simp

/-! Claim theorems. -/

/-- C1: the claim fails on the code: in ODE.solve_ode the initial guess
passed to solve_bvp is always the fresh np.random.rand draw (line 130); the
supplied initial_guess_y is never read, so the invocation record is
independent of it and equal to the record of a call with no guess. -/
theorem solve_ode_ignores_initial_guess (coeffs : List Coeff) (nx : ℕ)
    (tol : ℝ) (maxNodes : ℕ) (g : ℕ → ℕ → ℝ) (rand : ℕ → ℕ → ℝ) :
    (solve_ode_bvp_call coeffs nx tol maxNodes (some g) rand).guess = rand ∧
    solve_ode_bvp_call coeffs nx tol maxNodes (some g) rand =
      solve_ode_bvp_call coeffs nx tol maxNodes none rand :=
  ⟨rfl, rfl⟩

/-- C2: the claim fails on the code: ODE.solve_ode invokes solve_bvp with
the literal tolerance 1e-4 whatever tol the caller passed, and does not pass
the max_nodes keyword at all (line 131). -/
theorem solve_ode_hardcoded_tol_and_no_max_nodes (coeffs : List Coeff)
    (nx : ℕ) (tol : ℝ) (maxNodes : ℕ) (g : Option (ℕ → ℕ → ℝ))
    (rand : ℕ → ℕ → ℝ) :
    (solve_ode_bvp_call coeffs nx tol maxNodes g rand).tol = 1 / 10000 ∧
    (solve_ode_bvp_call coeffs nx tol maxNodes g rand).maxNodes = none :=
  ⟨rfl, rfl⟩

/-- C3: after argument validation passes (boundary-condition count equal to
the order, order at most 3), solve_ode raises the convergence error carrying
the solver status when the status is non-zero, and returns the interpolant
res.sol when the status is zero. -/
theorem solve_ode_status_dispatch {α : Type} (coeffs : List Coeff)
    (nbd : ℕ) (st : ℤ) (sol : α) (hbd : nbd = coeffs.length - 1)
    (hK : coeffs.length - 1 ≤ 3) :
    solve_ode_model coeffs nbd ⟨st, sol⟩ =
      if st = 0 then Except.ok sol
      else Except.error (OdeError.convergence st) := by
  unfold solve_ode_model
  rcases eq_or_ne st 0 with rfl | h
  · simp [hbd, Nat.not_lt.mpr hK]
  · simp [hbd, Nat.not_lt.mpr hK, h]

/-- Witness for C3 at a concrete second-order input with failing status 1
and with succeeding status 0. -/
theorem solve_ode_status_dispatch_witness :
    ((2 : ℕ) = [Coeff.const 1, Coeff.const 0, Coeff.const 1].length - 1 ∧
      [Coeff.const 1, Coeff.const 0, Coeff.const 1].length - 1 ≤ 3) ∧
    solve_ode_model [Coeff.const 1, Coeff.const 0, Coeff.const 1] 2
        ⟨(1 : ℤ), true⟩ =
      if (1 : ℤ) = 0 then Except.ok true
      else Except.error (OdeError.convergence 1) :=
  ⟨⟨rfl, by norm_num⟩,
    solve_ode_status_dispatch [Coeff.const 1, Coeff.const 0, Coeff.const 1]
      2 1 true rfl (by norm_num)⟩

/-- C7: the y data handed to the CubicSpline constructor at radial index k
and channel (m, l) is the projected coefficient divided by
points k ^ 2 * weights k, and the abscissae are exactly the radial grid
points. -/
theorem spline_with_sph_harms_fitted_data (sphHarm : ℕ → ℕ → ℕ → ℝ)
    (v w : ℕ → ℝ) (indices : List ℕ) (radial : OneDGrid) (k m l : ℕ) :
    (spline_with_sph_harms sphHarm v w indices radial).x = radial.points ∧
    (spline_with_sph_harms sphHarm v w indices radial).y k m l =
      project_function_onto_spherical_expansion sphHarm v w indices k m l /
        (radial.points k ^ 2 * radial.weights k) :=
  ⟨rfl, rfl⟩

/-- C8: interpolate_given_splines rejects a theta / phi length mismatch
with the length error, accepts any deriv in [0, 3] when the lengths match,
and rejects any other deriv with the range error; in particular deriv = 4 is
rejected. -/
theorem interpolate_given_splines_validation (nTheta nPhi : ℕ) (d : ℤ) :
    interpolate_given_splines_validate nTheta nPhi d =
      (if nTheta ≠ nPhi then some (InterpErr.lengthMismatch nTheta nPhi)
        else if 0 ≤ d ∧ d ≤ 3 then none
        else some (InterpErr.derivOutOfRange d)) ∧
    interpolate_given_splines_validate nTheta nTheta 4 =
      some (InterpErr.derivOutOfRange 4) := by
  constructor
  · unfold interpolate_given_splines_validate
    split_ifs <;> first | rfl | omega
  · norm_num [interpolate_given_splines_validate]

/-- C6: entry (k, m, l) of the projection, for k inside the K = len(indices)
- 1 stacked chunks, is the sum over the points n of shell k of
harmonic(m, l, n) * value(n) * weight(n). -/
theorem project_expansion_entry (sphHarm : ℕ → ℕ → ℕ → ℝ) (v w : ℕ → ℝ)
    (indices : List ℕ) (k m l : ℕ) (hk : k + 1 < indices.length) :
    project_function_onto_spherical_expansion sphHarm v w indices k m l =
      ∑ n ∈ Finset.Ico (indices.getD k 0) (indices.getD (k + 1) 0),
        sphHarm m l n * v n * w n := by
  unfold project_function_onto_spherical_expansion prod_value
  have hk' : k < indices.length - 1 := by omega
  rw [List.getD_eq_getElem?_getD, List.getElem?_map, List.getElem?_range hk']
  simp

/-- Witness for C6 on the concrete shells [0, 2, 5], middle shell k = 1. -/
theorem project_expansion_entry_witness :
    ((1 : ℕ) + 1 < ([0, 2, 5] : List ℕ).length) ∧
    project_function_onto_spherical_expansion (fun _ _ _ => 1)
        (fun n => (n : ℝ)) (fun _ => 1) [0, 2, 5] 1 0 0 =
      ∑ n ∈ Finset.Ico (([0, 2, 5] : List ℕ).getD 1 0)
          (([0, 2, 5] : List ℕ).getD 2 0),
        (fun _ _ _ => (1 : ℝ)) 0 0 n * (fun n => (n : ℝ)) n *
          (fun _ => (1 : ℝ)) n :=
  ⟨by norm_num,
    project_expansion_entry (fun _ _ _ => 1) (fun n => (n : ℝ)) (fun _ => 1)
      [0, 2, 5] 1 0 0 (by norm_num)⟩

/-- C9 counterexample: at l_max = -1 generate_sph_harms does not reject the
input: it returns an (empty) tensor of shape (0, 0, N) with no error. -/
theorem generate_sph_harms_negative_lmax_counterexample :
    generate_sph_harms_except (-1) = Except.ok (0, 0) := by
  rfl

/-- C9 amended: for negative l_max there is no argument validation:
generate_sph_harms returns an empty tensor (both harmonic axes of size 0)
without raising, and generate_real_sph_harms raises only an IndexError from
the row-0 assignment of the complex-to-real conversion on that empty
tensor. -/
theorem negative_lmax_behavior (lmax : ℤ) (h : lmax < 0) :
    generate_sph_harms_except lmax = Except.ok (0, 0) ∧
    generate_real_sph_harms_except lmax =
      Except.error GridOde.PyErr.indexError := by
  have h1 : (lmax + 1).toNat = 0 := by omega
  have h2 : lmax.toNat = 0 := by omega
  constructor
  · simp [generate_sph_harms_except, m_list_len, l_list_len, h1, h2]
  · simp [generate_real_sph_harms_except, generate_sph_harms_except,
      m_list_len, l_list_len, h1, h2]

/-- Witness for C9 at l_max = -1. -/
theorem negative_lmax_behavior_witness :
    ((-1 : ℤ) < 0) ∧
    (generate_sph_harms_except (-1) = Except.ok (0, 0) ∧
      generate_real_sph_harms_except (-1) =
        Except.error GridOde.PyErr.indexError) :=
  ⟨by norm_num, negative_lmax_behavior (-1) (by norm_num)⟩

/-- C10 counterexample: with coeff_b = [1, 1] (a first-order ODE), y = 2 and
fx = 5, after _rearrange_to_explicit_ode the caller fx buffer holds 3, not
its original value 5: the function modifies the fx array it was passed. -/
theorem rearrange_mutates_fx_counterexample :
    (rearrange_to_explicit_ode (fun _ _ => (2 : ℝ))
        [fun _ => (1 : ℝ), fun _ => (1 : ℝ)] (fun _ => (5 : ℝ))).2 0 = 3 ∧
    ((3 : ℝ) ≠ 5) := by
  constructor
  · norm_num [rearrange_to_explicit_ode, rearrange_sub, List.dropLast]
  · norm_num

/-- C10 amended: _rearrange_to_explicit_ode computes in place into the fx
buffer: after the call the caller array holds
fx - sum over the non-leading rows of coeff_b[j] * y[j] (so fx is modified
whenever that subtraction changes a value, in particular for every ODE of
order at least 1 with a non-trivial lower-order contribution), and the
returned array is that buffer divided pointwise by the leading coefficient
row. -/
theorem rearrange_to_explicit_ode_inplace (y : ℕ → ℕ → ℝ)
    (coeff_b : List (ℕ → ℝ)) (fx : ℕ → ℝ) (n : ℕ) :
    (rearrange_to_explicit_ode y coeff_b fx).2 n =
      fx n - ∑ j ∈ Finset.range (coeff_b.length - 1),
        (coeff_b.dropLast.getD j (fun _ => 0)) n * y j n ∧
    (rearrange_to_explicit_ode y coeff_b fx).1 n =
      (rearrange_to_explicit_ode y coeff_b fx).2 n /
        (coeff_b.getLastD (fun _ => 1)) n := by
  constructor
  · show rearrange_sub y 0 coeff_b.dropLast fx n = _
    rw [rearrange_sub_eq, List.length_dropLast]
    simp
  · rfl

/-- C4: the source _transform_ode_from_derivs raises NameError on every
call (its body reads the undefined names deriv_func_list and coeff_a); on
the computation its body documents, the transformed coefficients satisfy the
claimed chain-rule formulas b0 = a0, b1 = a1 g1 (+ a2 g2 for K ≥ 2, + a3 g3
for K ≥ 3), b2 = a2 g1^2 (+ 3 a3 g1 g2 for K ≥ 3), b3 = a3 g1^3, and the
identity transform (g1 = 1, g2 = g3 = 0) leaves every coefficient row
unchanged. -/
theorem transform_ode_from_derivs_formulas (coeffs : List Coeff)
    (d1 d2 d3 : ℝ → ℝ) (ds : List (ℝ → ℝ)) (r : ℕ → ℝ) (K j n : ℕ)
    (hlen : coeffs.length = K + 1) (hK : K ≤ 3) (hj : j ≤ K) :
    transform_ode_from_derivs coeffs ds r = Except.error PyErr.nameError ∧
    transform_ode_from_derivs_doc coeffs d1 d2 d3 r j n =
      transformed_coeffs_spec K (construct_coeff_array r coeffs)
        (fun p => d1 (r p)) (fun p => d2 (r p)) (fun p => d3 (r p)) j n ∧
    transform_ode_from_derivs_doc coeffs (fun _ => 1) (fun _ => 0)
        (fun _ => 0) r j n = construct_coeff_array r coeffs j n := by
  refine ⟨rfl, ?_, ?_⟩
  · unfold transform_ode_from_derivs_doc transformed_coeffs_spec
    rw [hlen]
    interval_cases K <;> interval_cases j <;> norm_num [mul_comm]
  · unfold transform_ode_from_derivs_doc
    rw [hlen]
    interval_cases K <;> interval_cases j <;> norm_num

/-- Witness for C4 at a concrete third-order input. -/
theorem transform_ode_from_derivs_formulas_witness :
    (([Coeff.const 1, Coeff.const 2, Coeff.const 3, Coeff.const 4] :
        List Coeff).length = 3 + 1 ∧ (3 : ℕ) ≤ 3 ∧ (2 : ℕ) ≤ 3) ∧
    (transform_ode_from_derivs
        [Coeff.const 1, Coeff.const 2, Coeff.const 3, Coeff.const 4] []
        (fun _ => 0) = Except.error PyErr.nameError ∧
      transform_ode_from_derivs_doc
          [Coeff.const 1, Coeff.const 2, Coeff.const 3, Coeff.const 4]
          (fun _ => 2) (fun _ => 5) (fun _ => 7) (fun _ => 0) 2 0 =
        transformed_coeffs_spec 3
          (construct_coeff_array (fun _ => 0)
            [Coeff.const 1, Coeff.const 2, Coeff.const 3, Coeff.const 4])
          (fun p => (fun _ => (2 : ℝ)) ((fun _ => (0 : ℝ)) p))
          (fun p => (fun _ => (5 : ℝ)) ((fun _ => (0 : ℝ)) p))
          (fun p => (fun _ => (7 : ℝ)) ((fun _ => (0 : ℝ)) p)) 2 0 ∧
      transform_ode_from_derivs_doc
          [Coeff.const 1, Coeff.const 2, Coeff.const 3, Coeff.const 4]
          (fun _ => 1) (fun _ => 0) (fun _ => 0) (fun _ => 0) 2 0 =
        construct_coeff_array (fun _ => 0)
          [Coeff.const 1, Coeff.const 2, Coeff.const 3, Coeff.const 4] 2 0) :=
  ⟨⟨rfl, by norm_num, by norm_num⟩,
    transform_ode_from_derivs_formulas
      [Coeff.const 1, Coeff.const 2, Coeff.const 3, Coeff.const 4]
      (fun _ => 2) (fun _ => 5) (fun _ => 7) [] (fun _ => 0) 3 2 0
      rfl (by norm_num) (by norm_num)⟩

/-- C5 counterexample: for l_max = 2 take the harmonic oracle Yc (which has
the conjugation symmetry of the complex harmonics and Y of order 2 equal to
i).  The tail row of order m = -2 (row index 3) of the produced real tensor
is -sqrt 2, while the claimed value sqrt 2 * Im (Y of order -m = 2) is
sqrt 2: the negative-order rows are built from the stored negative order,
not from the positive order -m, and the two differ in sign for even m. -/
theorem real_sph_negative_row_counterexample :
    generate_real_sph_harms 2 Yc 3 2 0 = -(Real.sqrt 2) ∧
    Real.sqrt 2 * (Yc 2 2 0).im = Real.sqrt 2 ∧
    -(Real.sqrt 2) ≠ Real.sqrt 2 := by
  have hs : (0 : ℝ) < Real.sqrt 2 := Real.sqrt_pos.mpr (by norm_num)
  refine ⟨?_, ?_, by intro h; linarith⟩
  · rw [show generate_real_sph_harms 2 Yc 3 2 0 =
        ((Yc (-2) 2 0 - (starRingEnd ℂ) (Yc (-2) 2 0)) /
          ((Real.sqrt 2 : ℂ) * Complex.I)).re from by
      norm_num [generate_real_sph_harms, convert_ylm_to_zlm,
        generate_sph_harms, mIndex, tail_start]]
    rw [re_sub_conj_div_sqrt_two_I]
    norm_num [Yc]
  · norm_num [Yc]

/-- C5 amended: for every l_max, harmonic oracle and in-range row index i,
row 0 of the real tensor is the real part of the order-0 complex harmonic,
the rows 1 .. l_max are sqrt 2 times the real part of the stored
positive-order harmonic, and the tail rows are sqrt 2 times the imaginary
part of the stored negative-order harmonic Y of order i - (2 l_max + 1)
(not of its positive counterpart). -/
theorem generate_real_sph_harms_rows (lmax : ℕ) (Y : ℤ → ℕ → ℕ → ℂ)
    (i l n : ℕ) (hi : i ≤ 2 * lmax) :
    generate_real_sph_harms lmax Y i l n = real_sph_rows_code lmax Y i l n := by
  unfold generate_real_sph_harms convert_ylm_to_zlm generate_sph_harms
    real_sph_rows_code mIndex tail_start
  split_ifs <;>
    first
      | rfl
      | exact re_add_conj_div_sqrt_two _
      | exact re_sub_conj_div_sqrt_two_I _
      | omega

/-- Witness for C5 (amended) at l_max = 2, row 1, with the oracle Yc. -/
theorem generate_real_sph_harms_rows_witness :
    ((1 : ℕ) ≤ 2 * 2) ∧
    generate_real_sph_harms 2 Yc 1 0 0 = real_sph_rows_code 2 Yc 1 0 0 :=
  ⟨by norm_num, generate_real_sph_harms_rows 2 Yc 1 0 0 (by norm_num)⟩
